import Mathlib

/-!
Shallow embedding of the document-store facade in `src/api/index.js`:
a small Express app exposing read endpoints over `podcasts` and `videos`
collections and write/read endpoints over a `messages` collection,
backed by MongoDB.  Handlers are modelled as pure functions; the result
of `connectDB` plus the query (either of which may throw inside the
handler's `try` block) is passed in as an `Except Unit DB` value, and
clock reads (`new Date()`) are passed in as an explicit `now : Nat`.
-/

namespace HWApi

/-- A MongoDB `_id` value: either a native ObjectId (stored as its
24-character lowercase hex encoding, matching byte equality of the
driver) or a plain string key. -/
inductive Key where
  | oid (hex : String)
  | str (s : String)
deriving DecidableEq, Repr

/-- A hex digit as accepted by the ObjectId constructor. -/
def isHexDigit (c : Char) : Bool :=
  c.isDigit || ('a' ≤ c && c ≤ 'f') || ('A' ≤ c && c ≤ 'F')

/-- `new ObjectId(s)` on a string succeeds exactly when `s` is a
24-character hex string; otherwise the constructor throws. -/
def isValidObjectId (s : String) : Bool :=
  s.length == 24 && s.data.all isHexDigit

/-- Lowercase a hex character (ObjectId equality is on bytes, i.e.
case-insensitive on the hex encoding; normalise at construction). -/
def lowerHexChar (c : Char) : Char :=
  if 'A' ≤ c && c ≤ 'F' then Char.ofNat (c.toNat + 32) else c

/-- Lowercase all hex characters of a string. -/
def lowerHex (s : String) : String :=
  ⟨s.data.map lowerHexChar⟩

/-- The id-or-string fallback shared by the four by-id handlers
(`src/api/index.js` lines 99-103, 126-130, 206-210, 233-237):
try `new ObjectId(req.params.id)`; if the constructor throws, fall
back to the raw path segment as a plain string `_id` key. -/
def buildQuery (s : String) : Key :=
  if isValidObjectId s then Key.oid (lowerHex s) else Key.str s

/-- A podcast or video document: an `_id`, the `date` field used for
descending sort, and the remaining schema-less attributes. -/
structure Doc where
  _id : Key
  date : Int
  attrs : List (String × String)
deriving DecidableEq, Repr

/-- A contact message document as inserted by `POST /api/contact` and
updated by `PUT /api/messages/:id/read`. -/
structure Msg where
  _id : Key
  name : String
  email : String
  message : String
  createdAt : Nat
  read : Bool
  readAt : Option Nat
deriving DecidableEq, Repr

/-- The three collections of the database. -/
structure DB where
  podcasts : List Doc
  videos : List Doc
  messages : List Msg
deriving DecidableEq, Repr

instance : DecidableEq (Except Unit DB) := fun a b =>
  match a, b with
  | .error x, .error y => isTrue (by rw [Unit.ext x y])
  | .ok x, .ok y =>
    if h : x = y then isTrue (by rw [h]) else isFalse (by simp [h])
  | .error _, .ok _ => isFalse (by simp)
  | .ok _, .error _ => isFalse (by simp)

/-- The global connection state: the `isConnected` flag and the `db`
handle (`src/api/index.js` lines 35-36). -/
structure ConnState where
  isConnected : Bool
  db : Option DB
deriving DecidableEq, Repr

/-- Outcome of a real `client.connect()` attempt. -/
inductive ConnAttempt where
  | success (d : DB)
  | failure
deriving DecidableEq, Repr

/-- `connectDB` (`src/api/index.js` lines 39-54): reuse the handle when
`isConnected && db`, otherwise attempt the real connect; on success set
both globals, on failure rethrow leaving the globals untouched. -/
def connectDB (st : ConnState) (attempt : ConnAttempt) : ConnState × Except Unit DB :=
  match st.isConnected, st.db with
  | true, some d => (st, .ok d)
  | _, _ =>
    match attempt with
    | .success d => ({ isConnected := true, db := some d }, .ok d)
    | .failure => (st, .error ())

/-- Debug payload (`src/api/index.js` lines 268-287). -/
structure DebugInfo where
  dbName : String
  podcastsCollectionName : String
  videosCollectionName : String
  connected : Bool
  podcastCount : Nat
  videoCount : Nat
  samplePodcast : Option (Key × List String)
  sampleVideo : Option (Key × List String)
deriving DecidableEq, Repr

/-- JSON response bodies produced by the handlers. -/
inductive Body where
  | docs (l : List Doc)
  | msgs (l : List Msg)
  | doc (d : Doc)
  | msg (m : Msg)
  | err (e : String)
  | contactOk (insertedId : Key)
  | markOk
  | health (status : String) (timestamp : Nat) (database : String)
  | debug (info : DebugInfo)
deriving DecidableEq, Repr

/-- An HTTP response: status code and JSON body. -/
structure Response where
  status : Nat
  body : Body
deriving DecidableEq, Repr

/-- The `database` field of a health body, when the body is one. -/
def databaseOf : Body → Option String
  | .health _ _ d => some d
  | _ => none

/-- Descending-by-`date` order on content documents, as requested by
`.sort(\x7b date: -1 \x7d)`. -/
def byDateDesc (a b : Doc) : Prop := b.date ≤ a.date

instance : DecidableRel byDateDesc := fun a b =>
  inferInstanceAs (Decidable (b.date ≤ a.date))

instance : IsTotal Doc byDateDesc := ⟨fun a b => le_total b.date a.date⟩

instance : IsTrans Doc byDateDesc := ⟨fun _ _ _ h1 h2 => le_trans h2 h1⟩

/-- Descending-by-`createdAt` order on messages, as requested by
`.sort(\x7b createdAt: -1 \x7d)`. -/
def byCreatedDesc (a b : Msg) : Prop := b.createdAt ≤ a.createdAt

instance : DecidableRel byCreatedDesc := fun a b =>
  inferInstanceAs (Decidable (b.createdAt ≤ a.createdAt))

instance : IsTotal Msg byCreatedDesc := ⟨fun a b => le_total b.createdAt a.createdAt⟩

instance : IsTrans Msg byCreatedDesc := ⟨fun _ _ _ h1 h2 => le_trans h2 h1⟩

/-- `GET /api/health` (lines 57-63): always 200, `database` field from
the `isConnected` flag. -/
def healthHandler (st : ConnState) (now : Nat) : Response :=
  ⟨200, .health "ok" now (if st.isConnected then "connected" else "disconnected")⟩

/-- `GET /api/podcasts` (lines 66-76): all podcasts sorted by `date`
descending; any store error is caught and mapped to 503. -/
def listPodcasts (store : Except Unit DB) : Response :=
  match store with
  | .error _ => ⟨503, .err "Service unavailable"⟩
  | .ok db => ⟨200, .docs (db.podcasts.insertionSort byDateDesc)⟩

/-- `GET /api/videos` (lines 79-89): same, videos collection. -/
def listVideos (store : Except Unit DB) : Response :=
  match store with
  | .error _ => ⟨503, .err "Service unavailable"⟩
  | .ok db => ⟨200, .docs (db.videos.insertionSort byDateDesc)⟩

/-- `GET /api/podcasts/:id` (lines 92-116): id-or-string fallback
lookup; absent document is 404, store error is 500. -/
def getPodcast (store : Except Unit DB) (idStr : String) : Response :=
  match store with
  | .error _ => ⟨500, .err "Internal server error"⟩
  | .ok db =>
    match db.podcasts.find? (fun d => d._id == buildQuery idStr) with
    | none => ⟨404, .err "Podcast not found"⟩
    | some d => ⟨200, .doc d⟩

/-- `GET /api/videos/:id` (lines 119-143): same, videos collection. -/
def getVideo (store : Except Unit DB) (idStr : String) : Response :=
  match store with
  | .error _ => ⟨500, .err "Internal server error"⟩
  | .ok db =>
    match db.videos.find? (fun d => d._id == buildQuery idStr) with
    | none => ⟨404, .err "Video not found"⟩
    | some d => ⟨200, .doc d⟩

/-- The JSON contact body: each field may be absent. -/
structure ContactBody where
  name : Option String
  email : Option String
  message : Option String
deriving DecidableEq, Repr

/-- JS truthiness of a possibly-absent string field: `undefined` and
the empty string are falsy, every other string is truthy. -/
def truthy : Option String → Bool
  | none => false
  | some s => !(s == "")

/-- A character allowed by the `[^\s@]` classes of the email regex. -/
def isLocalChar (c : Char) : Bool :=
  !(c == '@') && !c.isWhitespace

/-- Split a character list at its first `@`, if any. -/
def splitAtSign : List Char → Option (List Char × List Char)
  | [] => none
  | c :: rest =>
    if c == '@' then some ([], rest)
    else (splitAtSign rest).map (fun p => (c :: p.1, p.2))

/-- Whether a character list contains a `.` that is neither its first
nor its last character (the `[^\s@]+\.[^\s@]+` shape, given that all
characters are already known to be in `[^\s@]`). -/
def hasInteriorDot : List Char → Bool
  | [] => false
  | _ :: rest => rest.dropLast.contains '.'

/-- The email test `/^[^\s@]+@[^\s@]+\.[^\s@]+$/.test(email)`
(line 156-157): one `@`, nonempty whitespace-free local part, and a
domain part with an interior dot. -/
def emailOk (s : String) : Bool :=
  match splitAtSign s.data with
  | none => false
  | some (localPart, domainPart) =>
    !localPart.isEmpty && localPart.all isLocalChar &&
    domainPart.all isLocalChar && hasInteriorDot domainPart

/-- Strip leading and trailing whitespace characters. -/
def trimChars (cs : List Char) : List Char :=
  ((cs.dropWhile Char.isWhitespace).reverse.dropWhile Char.isWhitespace).reverse

/-- JavaScript `String.prototype.trim`. -/
def jsTrim (s : String) : String :=
  ⟨trimChars s.data⟩

/-- `POST /api/contact` (lines 146-183): falsy-field check then email
regex, both before touching the store; on success insert the trimmed
document with `createdAt = now, read = false` and answer 201 with the
inserted id.  Returns the response together with the store left behind
by the request. -/
def submitContact (body : ContactBody) (store : Except Unit DB) (newId : Key)
    (now : Nat) : Response × Except Unit DB :=
  if !truthy body.name || !truthy body.email || !truthy body.message then
    (⟨400, .err "All fields are required"⟩, store)
  else if !emailOk (body.email.getD "") then
    (⟨400, .err "Invalid email address"⟩, store)
  else
    match store with
    | .error e => (⟨500, .err "Internal server error"⟩, .error e)
    | .ok db =>
      let m : Msg :=
        { _id := newId
          name := jsTrim (body.name.getD "")
          email := jsTrim (body.email.getD "")
          message := jsTrim (body.message.getD "")
          createdAt := now
          read := false
          readAt := none }
      (⟨201, .contactOk newId⟩, .ok { db with messages := db.messages ++ [m] })

/-- `GET /api/messages` (lines 186-196): all messages sorted by
`createdAt` descending; the catch block maps a store error to 500. -/
def listMessages (store : Except Unit DB) : Response :=
  match store with
  | .error _ => ⟨500, .err "Internal server error"⟩
  | .ok db => ⟨200, .msgs (db.messages.insertionSort byCreatedDesc)⟩

/-- `GET /api/messages/:id` (lines 199-223): id-or-string fallback
lookup on the messages collection. -/
def getMessage (store : Except Unit DB) (idStr : String) : Response :=
  match store with
  | .error _ => ⟨500, .err "Internal server error"⟩
  | .ok db =>
    match db.messages.find? (fun m => m._id == buildQuery idStr) with
    | none => ⟨404, .err "Message not found"⟩
    | some m => ⟨200, .msg m⟩

/-- `updateOne(query, \x7b $set: \x7b read: true, readAt: new Date() \x7d \x7d)`:
update the first document matching the key, setting `read` and
`readAt`; `none` models `matchedCount === 0`. -/
def updateFirstRead (q : Key) (now : Nat) : List Msg → Option (List Msg)
  | [] => none
  | m :: rest =>
    if m._id == q then some ({ m with read := true, readAt := some now } :: rest)
    else (updateFirstRead q now rest).map (fun l => m :: l)

/-- `PUT /api/messages/:id/read` (lines 226-253): id-or-string fallback
update; `matchedCount === 0` is 404, store error is 500.  Returns the
response together with the store left behind by the request. -/
def markRead (store : Except Unit DB) (idStr : String) (now : Nat) :
    Response × Except Unit DB :=
  match store with
  | .error e => (⟨500, .err "Internal server error"⟩, .error e)
  | .ok db =>
    match updateFirstRead (buildQuery idStr) now db.messages with
    | none => (⟨404, .err "Message not found"⟩, .ok db)
    | some ms => (⟨200, .markOk⟩, .ok { db with messages := ms })

/-- `Object.keys` of a content document in our model. -/
def docKeys (d : Doc) : List String :=
  "_id" :: "date" :: d.attrs.map Prod.fst

/-- `GET /api/debug` (lines 256-296): counts, the first document of
each content collection reduced to id plus key list, and the
`isConnected` flag; any store error is caught and mapped to 503. -/
def debugHandler (store : Except Unit DB) (connFlag : Bool) : Response :=
  match store with
  | .error _ => ⟨503, .err "Debug error"⟩
  | .ok db =>
    ⟨200, .debug
      { dbName := "Assets"
        podcastsCollectionName := "podcasts"
        videosCollectionName := "videos"
        connected := connFlag
        podcastCount := db.podcasts.length
        videoCount := db.videos.length
        samplePodcast := db.podcasts.head?.map (fun d => (d._id, docKeys d))
        sampleVideo := db.videos.head?.map (fun d => (d._id, docKeys d)) }⟩

/-! Sample data used by the concrete witnesses. -/

/-- The empty database. -/
def emptyDB : DB := ⟨[], [], []⟩

/-- A sample message stored under a plain string key. -/
def sampleMsg : Msg := ⟨Key.str "m1", "Ann", "ann@example.com", "hello", 3, false, none⟩

/-- A sample database with one podcast and one message. -/
def sampleDB : DB := ⟨[⟨Key.str "p1", 1, []⟩], [], [sampleMsg]⟩

/-! Helper lemmas about `updateFirstRead`. -/

/-- `updateFirstRead` fails exactly when no document carries the key. -/
lemma updateFirstRead_eq_none (q : Key) (t : Nat) (l : List Msg) :
    updateFirstRead q t l = none ↔ ∀ m ∈ l, m._id ≠ q := by
  induction l with
  | nil => simp [updateFirstRead]
  | cons m rest ih =>
    by_cases h : m._id = q
    · simp [updateFirstRead, h]
    · simp [updateFirstRead, h, ih]

/-- Successful `updateFirstRead` splits the list around the first
matching document and rewrites exactly that document's `read` and
`readAt` fields. -/
lemma updateFirstRead_some_spec (q : Key) (t : Nat) :
    ∀ l l' : List Msg, updateFirstRead q t l = some l' →
      ∃ pre m post, l = pre ++ m :: post ∧ (∀ x ∈ pre, x._id ≠ q) ∧ m._id = q ∧
        l' = pre ++ { m with read := true, readAt := some t } :: post := by
  intro l
  induction l with
  | nil => intro l' h; simp [updateFirstRead] at h
  | cons m rest ih =>
    intro l' h
    by_cases hm : m._id = q
    · simp only [updateFirstRead] at h
      rw [if_pos (show (m._id == q) = true from beq_iff_eq.mpr hm)] at h
      refine ⟨[], m, rest, rfl, by simp, hm, ?_⟩
      simpa using h.symm
    · simp only [updateFirstRead, beq_iff_eq, hm, if_false, Option.map_eq_some'] at h
      obtain ⟨l2, h1, h2⟩ := h
      obtain ⟨pre, mm, post, e1, e2, e3, e4⟩ := ih l2 h1
      refine ⟨m :: pre, mm, post, by simp [e1], ?_, e3, by simp [← h2, e4]⟩
      intro x hx
      rcases List.mem_cons.mp hx with hx | hx
      · simpa [hx] using hm
      · exact e2 x hx

/-- C9: the Health endpoint never returns a non-200 status for any
store state; its body carries a status string, the timestamp, and a
database field that is "connected" exactly when the `isConnected` flag
is set. -/
theorem health_always_ok (st : ConnState) (now : Nat) :
    (healthHandler st now).status = 200 ∧
    (healthHandler st now).body =
      Body.health "ok" now (if st.isConnected then "connected" else "disconnected") ∧
    (databaseOf (healthHandler st now).body = some "connected" ↔ st.isConnected = true) := by
  refine ⟨rfl, rfl, ?_⟩
  cases h : st.isConnected <;> simp [healthHandler, databaseOf, h]

/-- C3 counterexample: a store failure during List Messages yields 500,
not the 503 the claim assigns to all listing endpoints. -/
theorem listMessages_error_counterexample :
    (listMessages (.error ())).status = 500 := rfl

/-- C3 amended: store failures on List Podcasts, List Videos and Debug
yield 503, while List Messages and every single-record operation
(Get Podcast, Get Video, Get Message, Mark Message Read, Submit
Contact with a valid body) yield 500. -/
theorem error_status_by_endpoint (e : Unit) (body : ContactBody) (k : Key)
    (now t : Nat) (s : String) (b : Bool)
    (h1 : truthy body.name = true) (h2 : truthy body.email = true)
    (h3 : truthy body.message = true) (h4 : emailOk (body.email.getD "") = true) :
    (listPodcasts (.error e)).status = 503 ∧
    (listVideos (.error e)).status = 503 ∧
    (debugHandler (.error e) b).status = 503 ∧
    (listMessages (.error e)).status = 500 ∧
    (getPodcast (.error e) s).status = 500 ∧
    (getVideo (.error e) s).status = 500 ∧
    (getMessage (.error e) s).status = 500 ∧
    (markRead (.error e) s t).1.status = 500 ∧
    (submitContact body (.error e) k now).1.status = 500 := by
  refine ⟨rfl, rfl, rfl, rfl, rfl, rfl, rfl, rfl, ?_⟩
  simp [submitContact, h1, h2, h3, h4]

/-- C3 witness: the amended status table at a concrete valid body. -/
theorem error_status_by_endpoint_witness :
    (submitContact ⟨some "Al", some "al@example.com", some "hi"⟩ (.error ())
      (Key.str "k") 0).1.status = 500 :=
  (error_status_by_endpoint () ⟨some "Al", some "al@example.com", some "hi"⟩
    (Key.str "k") 0 0 "x" false (by decide) (by decide) (by decide)
    (by decide)).2.2.2.2.2.2.2.2

/-- C2 counterexample: a whitespace-only `name` is not treated as
missing — the falsy-only check accepts it, the request is answered 201,
and the document is inserted with the name trimmed to the empty
string. -/
theorem whitespace_name_accepted_counterexample :
    (submitContact ⟨some " ", some "al@example.com", some "hi"⟩ (.ok emptyDB)
      (Key.str "k") 0).1.status = 201 ∧
    (submitContact ⟨some " ", some "al@example.com", some "hi"⟩ (.ok emptyDB)
      (Key.str "k") 0).2 =
      .ok ⟨[], [], [⟨Key.str "k", "", "al@example.com", "hi", 0, false, none⟩]⟩ := by
  exact ⟨by decide, by decide⟩

/-- C2 amended: Submit Contact returns 400 when any of name, email or
message is absent or is the empty string (JS falsiness); a
whitespace-only field passes this presence check rather than being
treated as missing. -/
theorem contact_missing_field_400 (body : ContactBody) (store : Except Unit DB)
    (k : Key) (now : Nat)
    (h : body.name = none ∨ body.name = some "" ∨ body.email = none ∨
         body.email = some "" ∨ body.message = none ∨ body.message = some "") :
    (submitContact body store k now).1.status = 400 := by
  rcases h with h | h | h | h | h | h <;> simp [submitContact, truthy, h]

/-- C2 witness: the amended rule at a concrete absent-name body. -/
theorem contact_missing_field_400_witness :
    (submitContact ⟨none, some "al@example.com", some "hi"⟩ (.ok emptyDB)
      (Key.str "k") 0).1.status = 400 :=
  contact_missing_field_400 ⟨none, some "al@example.com", some "hi"⟩
    (.ok emptyDB) (Key.str "k") 0 (Or.inl rfl)

/-- C4: every Submit Contact request rejected with 400 leaves the
store exactly as it was — no document is inserted. -/
theorem contact_400_no_insert (body : ContactBody) (store : Except Unit DB)
    (k : Key) (now : Nat) (h : (submitContact body store k now).1.status = 400) :
    (submitContact body store k now).2 = store := by
  by_cases h1 : (!truthy body.name || !truthy body.email || !truthy body.message) = true
  · simp [submitContact, h1]
  · by_cases h2 : (!emailOk (body.email.getD "")) = true
    · simp [submitContact, h1, h2]
    · exfalso
      cases store with
      | error e => simp [submitContact, h1, h2] at h
      | ok db => simp [submitContact, h1, h2] at h

/-- C4 witness: a concrete rejected request leaves the store as is. -/
theorem contact_400_no_insert_witness :
    (submitContact ⟨some "Al", some "not-an-email", some "hi"⟩ (.ok sampleDB)
      (Key.str "k") 0).2 = .ok sampleDB :=
  contact_400_no_insert ⟨some "Al", some "not-an-email", some "hi"⟩
    (.ok sampleDB) (Key.str "k") 0 (by decide)

/-- C7: `connectDB` reuses an established handle verbatim, a failed
attempt leaves the state not-connected, the connected flag is never
cleared, and the only way to become connected is a successful
attempt. -/
theorem connect_state_machine (st : ConnState) (a : ConnAttempt) :
    (∀ d, st.isConnected = true → st.db = some d → connectDB st a = (st, .ok d)) ∧
    (st.isConnected = true → (connectDB st a).1.isConnected = true) ∧
    (st.isConnected = false → a = .failure → connectDB st a = (st, .error ())) ∧
    ((connectDB st a).1.isConnected = true →
      st.isConnected = true ∨ ∃ d, a = .success d) := by
  obtain ⟨c, dbOpt⟩ := st
  cases c <;> cases dbOpt <;> cases a <;> simp [connectDB]

/-- C7 witness: a connected state with a handle is returned as is. -/
theorem connect_state_machine_witness :
    connectDB ⟨true, some emptyDB⟩ .failure = (⟨true, some emptyDB⟩, .ok emptyDB) :=
  (connect_state_machine ⟨true, some emptyDB⟩ .failure).1 emptyDB rfl rfl

/-- C1: every by-id handler first interprets the path identifier as an
ObjectId; when that parse fails the lookup falls back to the raw
segment as a plain string `_id` key, and the parse failure itself never
produces an error response — with the store available the status is
always 200 or 404. -/
theorem id_fallback (db : DB) (s : String) (t : Nat) :
    (isValidObjectId s = false → buildQuery s = Key.str s) ∧
    (isValidObjectId s = true → buildQuery s = Key.oid (lowerHex s)) ∧
    ((getPodcast (.ok db) s).status = 200 ∨ (getPodcast (.ok db) s).status = 404) ∧
    ((getVideo (.ok db) s).status = 200 ∨ (getVideo (.ok db) s).status = 404) ∧
    ((getMessage (.ok db) s).status = 200 ∨ (getMessage (.ok db) s).status = 404) ∧
    ((markRead (.ok db) s t).1.status = 200 ∨ (markRead (.ok db) s t).1.status = 404) ∧
    (isValidObjectId s = false →
      ((getMessage (.ok db) s).status = 200 ↔
        (db.messages.find? (fun m => m._id == Key.str s)).isSome = true)) := by
  refine ⟨fun h => by simp [buildQuery, h], fun h => by simp [buildQuery, h],
    ?_, ?_, ?_, ?_, ?_⟩
  · rcases hf : db.podcasts.find? (fun d => d._id == buildQuery s) with _ | d <;>
      simp [getPodcast, hf]
  · rcases hf : db.videos.find? (fun d => d._id == buildQuery s) with _ | d <;>
      simp [getVideo, hf]
  · rcases hf : db.messages.find? (fun m => m._id == buildQuery s) with _ | m <;>
      simp [getMessage, hf]
  · rcases hu : updateFirstRead (buildQuery s) t db.messages with _ | l <;>
      simp [markRead, hu]
  · intro h
    have hq : buildQuery s = Key.str s := by simp [buildQuery, h]
    rcases hf : db.messages.find? (fun m => m._id == Key.str s) with _ | m <;>
      simp [getMessage, hq, hf]

/-- C1 witness: a non-hex identifier falls back to the string key and
the lookup is the string-equality match. -/
theorem id_fallback_witness :
    buildQuery "zzz" = Key.str "zzz" ∧
    ((getMessage (.ok sampleDB) "zzz").status = 200 ↔
      (sampleDB.messages.find? (fun m => m._id == Key.str "zzz")).isSome = true) :=
  ⟨(id_fallback sampleDB "zzz" 0).1 (by decide),
   (id_fallback sampleDB "zzz" 0).2.2.2.2.2.2 (by decide)⟩

/-- C8: List Podcasts and List Videos answer 200 with the whole
collection ordered by `date` descending, List Messages answers 200
with all messages ordered by `createdAt` descending, for every store
state; the empty collections yield empty arrays. -/
theorem listings_sorted (db : DB) :
    (listPodcasts (.ok db)).status = 200 ∧
    (listPodcasts (.ok db)).body = .docs (db.podcasts.insertionSort byDateDesc) ∧
    List.Perm (db.podcasts.insertionSort byDateDesc) db.podcasts ∧
    List.Sorted byDateDesc (db.podcasts.insertionSort byDateDesc) ∧
    (listVideos (.ok db)).status = 200 ∧
    (listVideos (.ok db)).body = .docs (db.videos.insertionSort byDateDesc) ∧
    List.Perm (db.videos.insertionSort byDateDesc) db.videos ∧
    List.Sorted byDateDesc (db.videos.insertionSort byDateDesc) ∧
    (listMessages (.ok db)).status = 200 ∧
    (listMessages (.ok db)).body = .msgs (db.messages.insertionSort byCreatedDesc) ∧
    List.Perm (db.messages.insertionSort byCreatedDesc) db.messages ∧
    List.Sorted byCreatedDesc (db.messages.insertionSort byCreatedDesc) ∧
    (listPodcasts (.ok emptyDB)).body = .docs [] ∧
    (listVideos (.ok emptyDB)).body = .docs [] ∧
    (listMessages (.ok emptyDB)).body = .msgs [] :=
  ⟨rfl, rfl, List.perm_insertionSort _ _, List.sorted_insertionSort _ _,
   rfl, rfl, List.perm_insertionSort _ _, List.sorted_insertionSort _ _,
   rfl, rfl, List.perm_insertionSort _ _, List.sorted_insertionSort _ _,
   rfl, rfl, rfl⟩

/-- C6: Mark Message Read is idempotent in effect: when a message with
the identifier exists, both the first and the second invocation answer
200, and afterwards the store holds a message with that identifier
whose `read` flag is true. -/
theorem markRead_idempotent (db : DB) (s : String) (t1 t2 : Nat)
    (h : ∃ m ∈ db.messages, m._id = buildQuery s) :
    (markRead (.ok db) s t1).1.status = 200 ∧
    (markRead ((markRead (.ok db) s t1).2) s t2).1.status = 200 ∧
    ∃ db2, (markRead ((markRead (.ok db) s t1).2) s t2).2 = .ok db2 ∧
      ∃ m ∈ db2.messages, m._id = buildQuery s ∧ m.read = true := by
  obtain ⟨m0, hm0, hid⟩ := h
  rcases hu1 : updateFirstRead (buildQuery s) t1 db.messages with _ | l1
  · rw [updateFirstRead_eq_none] at hu1
    exact absurd hid (hu1 m0 hm0)
  · obtain ⟨pre, m1, post, e1, e2, e3, e4⟩ := updateFirstRead_some_spec _ _ _ _ hu1
    have r1 : markRead (.ok db) s t1 = (⟨200, .markOk⟩, .ok { db with messages := l1 }) := by
      simp [markRead, hu1]
    rcases hu2 : updateFirstRead (buildQuery s) t2 l1 with _ | l2
    · exfalso
      rw [updateFirstRead_eq_none] at hu2
      refine hu2 { m1 with read := true, readAt := some t1 } ?_ (by simpa using e3)
      rw [e4]
      exact List.mem_append_right _ (List.mem_cons_self _ _)
    · obtain ⟨pre2, m2, post2, f1, f2, f3, f4⟩ := updateFirstRead_some_spec _ _ _ _ hu2
      have r2 : markRead (.ok { db with messages := l1 }) s t2 =
          (⟨200, .markOk⟩, .ok { db with messages := l2 }) := by
        simp [markRead, hu2]
      refine ⟨by rw [r1], by rw [r1, r2], { db with messages := l2 }, by rw [r1, r2],
        { m2 with read := true, readAt := some t2 }, ?_, by simpa using f3, rfl⟩
      rw [f4]
      exact List.mem_append_right _ (List.mem_cons_self _ _)

/-- C6 witness: marking the sample message read twice. -/
theorem markRead_idempotent_witness :
    (markRead (.ok sampleDB) "m1" 4).1.status = 200 ∧
    (markRead ((markRead (.ok sampleDB) "m1" 4).2) "m1" 5).1.status = 200 ∧
    ∃ db2, (markRead ((markRead (.ok sampleDB) "m1" 4).2) "m1" 5).2 = .ok db2 ∧
      ∃ m ∈ db2.messages, m._id = buildQuery "m1" ∧ m.read = true :=
  markRead_idempotent sampleDB "m1" 4 5 (by decide)

/-- C10: a 200 Mark Message Read rewrites exactly the first matching
message, leaving `name`, `email`, `message`, `createdAt` and `_id`
untouched (the record update below changes only `read` and `readAt`),
always overwriting `readAt` with the current time; the other
collections and messages are untouched. -/
theorem markRead_frame (db db2 : DB) (s : String) (t : Nat)
    (h : (markRead (.ok db) s t).2 = .ok db2)
    (h200 : (markRead (.ok db) s t).1.status = 200) :
    db2.podcasts = db.podcasts ∧ db2.videos = db.videos ∧
    ∃ pre m post, db.messages = pre ++ m :: post ∧
      (∀ x ∈ pre, x._id ≠ buildQuery s) ∧ m._id = buildQuery s ∧
      db2.messages = pre ++ { m with read := true, readAt := some t } :: post := by
  rcases hu : updateFirstRead (buildQuery s) t db.messages with _ | l
  · simp [markRead, hu] at h200
  · simp only [markRead, hu] at h
    have hdb : ({ db with messages := l } : DB) = db2 := by
      exact Except.ok.inj h
    obtain ⟨pre, m, post, e1, e2, e3, e4⟩ := updateFirstRead_some_spec _ _ _ _ hu
    exact ⟨by rw [← hdb], by rw [← hdb], pre, m, post, e1, e2, e3, by rw [← hdb]; exact e4⟩

/-- C10 witness: the frame condition at the sample database. -/
theorem markRead_frame_witness :
    ∃ pre m post, sampleDB.messages = pre ++ m :: post ∧
      (∀ x ∈ pre, x._id ≠ buildQuery "m1") ∧ m._id = buildQuery "m1" ∧
      (⟨[⟨Key.str "p1", 1, []⟩], [],
        [⟨Key.str "m1", "Ann", "ann@example.com", "hello", 3, true, some 9⟩]⟩ : DB).messages =
        pre ++ { m with read := true, readAt := some 9 } :: post :=
  (markRead_frame sampleDB
    ⟨[⟨Key.str "p1", 1, []⟩], [],
      [⟨Key.str "m1", "Ann", "ann@example.com", "hello", 3, true, some 9⟩]⟩
    "m1" 9 (by decide) (by decide)).2.2

/-- C5: a valid contact submission with the store available answers
201 carrying the generated identifier, appends the document with the
trimmed fields, `createdAt = now` and `read = false`, and a subsequent
Get Message by that identifier returns exactly that document. -/
theorem contact_roundtrip (db : DB) (nm em ms hex : String) (now : Nat)
    (hnm : nm ≠ "") (hem : em ≠ "") (hms : ms ≠ "")
    (hre : emailOk em = true)
    (hhex : isValidObjectId hex = true) (hlow : lowerHex hex = hex)
    (hfresh : ∀ m ∈ db.messages, m._id ≠ Key.oid hex) :
    (submitContact ⟨some nm, some em, some ms⟩ (.ok db) (Key.oid hex) now).1 =
      ⟨201, .contactOk (Key.oid hex)⟩ ∧
    (submitContact ⟨some nm, some em, some ms⟩ (.ok db) (Key.oid hex) now).2 =
      .ok { db with messages := db.messages ++
        [⟨Key.oid hex, jsTrim nm, jsTrim em, jsTrim ms, now, false, none⟩] } ∧
    getMessage (submitContact ⟨some nm, some em, some ms⟩ (.ok db) (Key.oid hex) now).2 hex =
      ⟨200, .msg ⟨Key.oid hex, jsTrim nm, jsTrim em, jsTrim ms, now, false, none⟩⟩ := by
  have h1 : (nm == "") = false := by simp [hnm]
  have h2 : (em == "") = false := by simp [hem]
  have h3 : (ms == "") = false := by simp [hms]
  have hsub : submitContact ⟨some nm, some em, some ms⟩ (.ok db) (Key.oid hex) now =
      (⟨201, .contactOk (Key.oid hex)⟩,
       .ok { db with messages := db.messages ++
         [⟨Key.oid hex, jsTrim nm, jsTrim em, jsTrim ms, now, false, none⟩] }) := by
    simp [submitContact, truthy, h1, h2, h3, hre]
  have hq : buildQuery hex = Key.oid hex := by simp [buildQuery, hhex, hlow]
  refine ⟨by rw [hsub], by rw [hsub], ?_⟩
  rw [hsub]
  simp only [getMessage, hq, List.find?_append]
  have hnone : db.messages.find? (fun m => m._id == Key.oid hex) = none := by
    rw [List.find?_eq_none]
    intro x hx
    simp [hfresh x hx]
  rw [hnone]
  simp

/-- C5 witness: a concrete round trip through submit and get. -/
theorem contact_roundtrip_witness :
    (" Al " : String) ≠ "" ∧
    getMessage (submitContact ⟨some " Al ", some "al@example.com", some "hi"⟩
        (.ok emptyDB) (Key.oid "0123456789abcdef01234567") 7).2
        "0123456789abcdef01234567" =
      ⟨200, .msg ⟨Key.oid "0123456789abcdef01234567", jsTrim " Al ",
        jsTrim "al@example.com", jsTrim "hi", 7, false, none⟩⟩ :=
  ⟨by decide,
   (contact_roundtrip emptyDB " Al " "al@example.com" "hi" "0123456789abcdef01234567" 7
     (by decide) (by decide) (by decide) (by decide) (by decide) (by decide)
     (by decide)).2.2⟩

end HWApi
